import Mathlib

/-
Verification of the resource-resolution-and-job-polling orchestration
pattern of the actor layer (organization actions).

The repository ships the Ginkgo test file for `GetOrganizationByName` and
`DeleteOrganization` (actor/v2action); the implementation file itself is
absent, so the operations below are modelled from the specification
(sections 4.1 - 4.3) and checked against the behaviours the test file pins
down.  The transport collaborator is embedded exactly as the test's fake
client: a record of canned responses, with job-status responses indexed by
the poll call number.  Every operation additionally returns the trace of
transport calls it issued, in order, so that call-count and call-argument
properties are statable.
-/

namespace V2Action

/-- Advisory warning strings, ordered; `ccv2.Warnings` in the source. -/
abbrev Warnings := List String

/-- A remote organization: stable GUID plus human-readable name
(`ccv2.Organization`). -/
structure Organization where
  guid : String
  name : String
deriving Repr, DecidableEq

/-- The zero value `Organization\x7b\x7d` returned by Go on failure paths. -/
def emptyOrganization : Organization := ⟨"", ""⟩

/-- Job statuses are strings in the source (`ccv2.JobStatus`). -/
abbrev JobStatus := String

def jobStatusQueued : JobStatus := "queued"

def jobStatusRunning : JobStatus := "running"

/-- `ccv2.JobStatusFinished`, the terminal success status. -/
def jobStatusFinished : JobStatus := "finished"

/-- `ccv2.JobStatusFailed`, the terminal failure status. -/
def jobStatusFailed : JobStatus := "failed"

/-- A status is terminal when it is finished or failed. -/
def isTerminalStatus (s : JobStatus) : Bool :=
  s == jobStatusFinished || s == jobStatusFailed

/-- A server-side asynchronous job handle (`ccv2.Job`). -/
structure Job where
  guid : String
  status : JobStatus
deriving Repr, DecidableEq

/-- The canonical name filter field (`ccv2.NameFilter`). -/
def nameFilter : String := "name"

/-- The equality operator (`ccv2.EqualOperator`). -/
def equalOperator : String := ":"

/-- A filter clause sent to the transport (`ccv2.Query`). -/
structure Query where
  filter : String
  operator : String
  value : String
deriving Repr, DecidableEq

/-- The single error value surfaced by one orchestrated operation.
`transport` wraps the collaborator's opaque error verbatim; the others are
synthesized by this layer (spec section 7). -/
inductive OpError where
  | organizationNotFound (name : String)
  | multipleOrganizationsFound (name : String) (guids : List String)
  | jobFailed (jobGUID : String)
  | pollingTimeout (jobGUID : String) (elapsed : Nat)
  | transport (cause : String)
deriving Repr, DecidableEq

/-- One transport call, recorded with its arguments, in issuance order. -/
inductive Call where
  | getOrganizations (query : List Query)
  | deleteOrganization (guid : String)
  | getJob (guid : String)
deriving Repr, DecidableEq

/-- The transport collaborator, embedded as the test file's fake client:
canned responses for each call.  `getJobResults i` is the response to the
i-th job-status poll (0-based), so a script may vary across polls. -/
structure CloudControllerClient where
  getOrganizationsResult : List Organization × Warnings × Option OpError
  deleteOrganizationResult : Job × Warnings × Option OpError
  getJobResults : Nat → Job × Warnings × Option OpError

/-- Modelled from the spec: section 4.1 Resource Resolver — the
implementation of `GetOrganizationByName` is not among the shown sources,
only its tests.  Sends a single equality filter on the name field, then
reduces by result-set arity: transport error propagated verbatim, zero
matches is not-found, one match succeeds, two or more is ambiguous with
the GUIDs in transport order.  The fourth component is the trace of
transport calls issued. -/
def GetOrganizationByName (client : CloudControllerClient) (orgName : String) :
    Organization × Warnings × Option OpError × List Call :=
  let q : List Query := [⟨nameFilter, equalOperator, orgName⟩]
  let r := client.getOrganizationsResult
  let trace : List Call := [Call.getOrganizations q]
  match r.2.2 with
  | some e => (emptyOrganization, r.2.1, some e, trace)
  | none =>
    match r.1 with
    | [] => (emptyOrganization, r.2.1, some (OpError.organizationNotFound orgName), trace)
    | [org] => (org, r.2.1, none, trace)
    | orgs =>
      (emptyOrganization, r.2.1,
        some (OpError.multipleOrganizationsFound orgName (orgs.map Organization.guid)), trace)

/-- Modelled from the spec: section 4.2 Job Poller — the poller's
implementation is not among the shown sources.  One recursion step per
poll attempt; `remaining` is the poll budget still available before the
deadline (the cadence is one tick per poll, a legal fixed interval),
`elapsed` the ticks consumed so far, `i` the index of the next poll call.
The deadline is re-checked before each poll: at `remaining = 0` the loop
times out without issuing a call.  Warnings of every poll are appended to
the accumulator regardless of outcome. -/
def pollUntilTerminalAux (client : CloudControllerClient) (jobGUID : String) :
    Nat → Nat → Nat → Warnings → List Call → Warnings × Option OpError × List Call
  | 0, elapsed, _, acc, trace =>
    (acc, some (OpError.pollingTimeout jobGUID elapsed), trace)
  | remaining + 1, elapsed, i, acc, trace =>
    let r := client.getJobResults i
    let acc2 := acc ++ r.2.1
    let trace2 := trace ++ [Call.getJob jobGUID]
    match r.2.2 with
    | some e => (acc2, some e, trace2)
    | none =>
      if r.1.status == jobStatusFinished then (acc2, none, trace2)
      else if r.1.status == jobStatusFailed then
        (acc2, some (OpError.jobFailed r.1.guid), trace2)
      else pollUntilTerminalAux client jobGUID remaining (elapsed + 1) (i + 1) acc2 trace2

/-- Modelled from the spec: section 4.2 contract
pollUntilTerminal(jobHandle, deadline) — polls the job status until a
terminal state or the caller-supplied deadline, starting with zero elapsed
time and poll index 0. -/
def pollUntilTerminal (client : CloudControllerClient) (jobGUID : String) (deadline : Nat) :
    Warnings × Option OpError × List Call :=
  pollUntilTerminalAux client jobGUID deadline 0 0 [] []

/-- Modelled from the spec: section 4.3 Orchestrated Delete Operation —
the implementation of `DeleteOrganization` is not among the shown sources,
only its tests.  Resolve by name, short-circuit on error; issue the delete
with the resolved GUID, merge its warnings before checking its error;
then poll the returned job's GUID until terminal within `deadline` (the
process-wide polling timeout, passed explicitly). -/
def DeleteOrganization (client : CloudControllerClient) (deadline : Nat) (orgName : String) :
    Warnings × Option OpError × List Call :=
  match GetOrganizationByName client orgName with
  | (org, ws1, err1, tr1) =>
    match err1 with
    | some e => (ws1, some e, tr1)
    | none =>
      let r2 := client.deleteOrganizationResult
      let ws2 := ws1 ++ r2.2.1
      let tr2 := tr1 ++ [Call.deleteOrganization org.guid]
      match r2.2.2 with
      | some e => (ws2, some e, tr2)
      | none =>
        match pollUntilTerminal client r2.1.guid deadline with
        | (pws, perr, ptr) => (ws2 ++ pws, perr, tr2 ++ ptr)

/-- The poll at index `i` returns no error and a non-terminal status. -/
def NonTerminalPoll (client : CloudControllerClient) (i : Nat) : Prop :=
  (client.getJobResults i).2.2 = none ∧
    isTerminalStatus (client.getJobResults i).1.status = false

/-- Concatenation of the warnings of `count` consecutive poll responses
starting at poll index `i`, in call order. -/
def pollWarningsFrom (client : CloudControllerClient) (i : Nat) : Nat → Warnings
  | 0 => []
  | count + 1 => (client.getJobResults i).2.1 ++ pollWarningsFrom client (i + 1) count

/-- The single equality-filter query the resolver sends for `orgName`. -/
def nameQuery (orgName : String) : List Query := [⟨nameFilter, equalOperator, orgName⟩]

/- Concrete clients mirroring the scenarios of the test file. -/

def dummyJob : Job := ⟨"", ""⟩

/-- Fake client for the single-match resolution scenario of the tests. -/
def singleOrgClient : CloudControllerClient :=
  { getOrganizationsResult := ([⟨"some-org-guid", ""⟩], ["warning-1", "warning-2"], none)
    deleteOrganizationResult := (dummyJob, [], none)
    getJobResults := fun _ => (dummyJob, [], none) }

/-- Fake client for the no-match resolution scenario of the tests. -/
def zeroOrgClient : CloudControllerClient :=
  { getOrganizationsResult := ([], ["get-org-warning"], none)
    deleteOrganizationResult := (dummyJob, [], none)
    getJobResults := fun _ => (dummyJob, [], none) }

/-- Fake client for the multiple-match resolution scenario of the tests. -/
def multiOrgClient : CloudControllerClient :=
  { getOrganizationsResult :=
      ([⟨"org-1-guid", ""⟩, ⟨"org-2-guid", ""⟩], ["get-org-warning"], none)
    deleteOrganizationResult := (dummyJob, [], none)
    getJobResults := fun _ => (dummyJob, [], none) }

/-- Fake client for the transport-error resolution scenario of the tests. -/
def errOrgClient : CloudControllerClient :=
  { getOrganizationsResult :=
      ([], ["get-org-warning"], some (OpError.transport "get-orgs-error"))
    deleteOrganizationResult := (dummyJob, [], none)
    getJobResults := fun _ => (dummyJob, [], none) }

/-- C2: a transport listing with exactly one resource and no error makes
resolve succeed with that resource, the listing call's warnings, and no
error (and the trace is that one listing call). -/
theorem getOrganizationByName_single (client : CloudControllerClient) (orgName : String)
    (org : Organization) (ws : Warnings)
    (h : client.getOrganizationsResult = ([org], ws, none)) :
    GetOrganizationByName client orgName =
      (org, ws, none, [Call.getOrganizations (nameQuery orgName)]) := by
  simp [GetOrganizationByName, nameQuery, h]

/-- C2 witness: the single-match scenario of the test file. -/
theorem getOrganizationByName_single_witness :
    GetOrganizationByName singleOrgClient "some-org" =
      (⟨"some-org-guid", ""⟩, ["warning-1", "warning-2"], none,
        [Call.getOrganizations (nameQuery "some-org")]) :=
  getOrganizationByName_single singleOrgClient "some-org" ⟨"some-org-guid", ""⟩
    ["warning-1", "warning-2"] rfl

/-- C3: a transport listing with zero resources and no error makes resolve
fail with `organizationNotFound` carrying the supplied name, while the
listing call's warnings are still returned. -/
theorem getOrganizationByName_notFound (client : CloudControllerClient) (orgName : String)
    (ws : Warnings) (h : client.getOrganizationsResult = ([], ws, none)) :
    GetOrganizationByName client orgName =
      (emptyOrganization, ws, some (OpError.organizationNotFound orgName),
        [Call.getOrganizations (nameQuery orgName)]) := by
  simp [GetOrganizationByName, nameQuery, h]

/-- C3 witness: the no-match scenario of the test file. -/
theorem getOrganizationByName_notFound_witness :
    GetOrganizationByName zeroOrgClient "some-org" =
      (emptyOrganization, ["get-org-warning"],
        some (OpError.organizationNotFound "some-org"),
        [Call.getOrganizations (nameQuery "some-org")]) :=
  getOrganizationByName_notFound zeroOrgClient "some-org" ["get-org-warning"] rfl

/-- C4: a transport listing with two or more resources and no error makes
resolve fail with `multipleOrganizationsFound` carrying the queried name
and the GUIDs of all matches in the transport's returned order, while the
listing call's warnings are still returned. -/
theorem getOrganizationByName_multiple (client : CloudControllerClient) (orgName : String)
    (o1 o2 : Organization) (rest : List Organization) (ws : Warnings)
    (h : client.getOrganizationsResult = (o1 :: o2 :: rest, ws, none)) :
    GetOrganizationByName client orgName =
      (emptyOrganization, ws,
        some (OpError.multipleOrganizationsFound orgName
          ((o1 :: o2 :: rest).map Organization.guid)),
        [Call.getOrganizations (nameQuery orgName)]) := by
  simp [GetOrganizationByName, nameQuery, h]

/-- C4 witness: the multiple-match scenario of the test file, with the
GUIDs listed in the transport's order. -/
theorem getOrganizationByName_multiple_witness :
    GetOrganizationByName multiOrgClient "some-org" =
      (emptyOrganization, ["get-org-warning"],
        some (OpError.multipleOrganizationsFound "some-org" ["org-1-guid", "org-2-guid"]),
        [Call.getOrganizations (nameQuery "some-org")]) :=
  (getOrganizationByName_multiple multiOrgClient "some-org" ⟨"org-1-guid", ""⟩
    ⟨"org-2-guid", ""⟩ [] ["get-org-warning"] rfl).trans (by decide)

/-- C5: every invocation of resolve issues exactly one transport listing
call, whose query is exactly one filter clause: the canonical name field,
the equality operator, and the supplied name. -/
theorem getOrganizationByName_single_call (client : CloudControllerClient) (orgName : String) :
    (GetOrganizationByName client orgName).2.2.2 =
      [Call.getOrganizations [⟨nameFilter, equalOperator, orgName⟩]] := by
  rcases h : client.getOrganizationsResult with ⟨orgs, ws, err⟩
  cases err with
  | some e => simp [GetOrganizationByName, h]
  | none =>
    match orgs with
    | [] => simp [GetOrganizationByName, h]
    | [org] => simp [GetOrganizationByName, h]
    | o1 :: o2 :: rest => simp [GetOrganizationByName, h]

/-- C6: when the listing call returns a transport-level error, resolve
propagates that exact error value together with the warnings of that call,
regardless of the returned resource list (no arity-based resolution). -/
theorem getOrganizationByName_transport_error (client : CloudControllerClient)
    (orgName : String) (orgs : List Organization) (ws : Warnings) (e : OpError)
    (h : client.getOrganizationsResult = (orgs, ws, some e)) :
    GetOrganizationByName client orgName =
      (emptyOrganization, ws, some e, [Call.getOrganizations (nameQuery orgName)]) := by
  simp [GetOrganizationByName, nameQuery, h]

/-- If every poll response within the budget is error-free and
non-terminal, the poll loop exhausts its budget, times out, and issues
exactly `remaining` further calls — none after the deadline. -/
theorem pollUntilTerminalAux_timeout (client : CloudControllerClient) (jobGUID : String) :
    ∀ (remaining i elapsed : Nat) (acc : Warnings) (trace : List Call),
      (∀ k, k < remaining → NonTerminalPoll client (i + k)) →
      pollUntilTerminalAux client jobGUID remaining elapsed i acc trace =
        (acc ++ pollWarningsFrom client i remaining,
          some (OpError.pollingTimeout jobGUID (elapsed + remaining)),
          trace ++ List.replicate remaining (Call.getJob jobGUID)) := by
  intro remaining
  induction remaining with
  | zero =>
    intro i elapsed acc trace _
    simp [pollUntilTerminalAux, pollWarningsFrom]
  | succ n ih =>
    intro i elapsed acc trace h
    obtain ⟨he, hs⟩ := h 0 (Nat.succ_pos n)
    rw [Nat.add_zero] at he hs
    rw [isTerminalStatus, Bool.or_eq_false_iff] at hs
    obtain ⟨hs1, hs2⟩ := hs
    rw [pollUntilTerminalAux]
    simp only [he, hs1, hs2, Bool.false_eq_true, if_false]
    rw [ih (i + 1) (elapsed + 1) _ _ (fun k hk => by
      have := h (k + 1) (Nat.succ_lt_succ hk)
      rwa [show i + (k + 1) = i + 1 + k by omega] at this)]
    refine Prod.ext ?_ (Prod.ext ?_ ?_)
    · simp [pollWarningsFrom, List.append_assoc]
    · simp only [Option.some.injEq, OpError.pollingTimeout.injEq]
      exact ⟨trivial, by omega⟩
    · simp [List.replicate_succ, List.append_assoc]

/-- If the first `n` poll responses are error-free and non-terminal and
the poll at index `i + n` is error-free with finished status, then within
a budget larger than `n` the loop succeeds after exactly `n + 1` calls,
appending each poll's warnings in call order. -/
theorem pollUntilTerminalAux_success (client : CloudControllerClient) (jobGUID : String) :
    ∀ (n remaining i elapsed : Nat) (acc : Warnings) (trace : List Call),
      n < remaining →
      (∀ k, k < n → NonTerminalPoll client (i + k)) →
      (client.getJobResults (i + n)).2.2 = none →
      (client.getJobResults (i + n)).1.status = jobStatusFinished →
      pollUntilTerminalAux client jobGUID remaining elapsed i acc trace =
        (acc ++ pollWarningsFrom client i (n + 1), none,
          trace ++ List.replicate (n + 1) (Call.getJob jobGUID)) := by
  intro n
  induction n with
  | zero =>
    intro remaining i elapsed acc trace hlt _ he hs
    cases remaining with
    | zero => exact absurd hlt (by omega)
    | succ m =>
      rw [Nat.add_zero] at he hs
      rw [pollUntilTerminalAux]
      simp [he, hs, pollWarningsFrom]
  | succ n ih =>
    intro remaining i elapsed acc trace hlt h he hs
    cases remaining with
    | zero => exact absurd hlt (by omega)
    | succ m =>
      obtain ⟨he0, hs0⟩ := h 0 (Nat.succ_pos n)
      rw [Nat.add_zero] at he0 hs0
      rw [isTerminalStatus, Bool.or_eq_false_iff] at hs0
      obtain ⟨hs1, hs2⟩ := hs0
      rw [pollUntilTerminalAux]
      simp only [he0, hs1, hs2, Bool.false_eq_true, if_false]
      rw [ih m (i + 1) (elapsed + 1) _ _ (by omega)
        (fun k hk => by
          have := h (k + 1) (Nat.succ_lt_succ hk)
          rwa [show i + (k + 1) = i + 1 + k by omega] at this)
        (by rwa [show i + 1 + n = i + (n + 1) by omega])
        (by rwa [show i + 1 + n = i + (n + 1) by omega])]
      simp [pollWarningsFrom, List.replicate_succ, List.append_assoc]

/-- If the first `n` poll responses are error-free and non-terminal and
the poll at index `i + n` returns an error, then within a budget larger
than `n` the loop stops with that error after exactly `n + 1` calls, still
appending the failing poll's warnings. -/
theorem pollUntilTerminalAux_error (client : CloudControllerClient) (jobGUID : String)
    (e : OpError) :
    ∀ (n remaining i elapsed : Nat) (acc : Warnings) (trace : List Call),
      n < remaining →
      (∀ k, k < n → NonTerminalPoll client (i + k)) →
      (client.getJobResults (i + n)).2.2 = some e →
      pollUntilTerminalAux client jobGUID remaining elapsed i acc trace =
        (acc ++ pollWarningsFrom client i (n + 1), some e,
          trace ++ List.replicate (n + 1) (Call.getJob jobGUID)) := by
  intro n
  induction n with
  | zero =>
    intro remaining i elapsed acc trace hlt _ he
    cases remaining with
    | zero => exact absurd hlt (by omega)
    | succ m =>
      rw [Nat.add_zero] at he
      rw [pollUntilTerminalAux]
      simp [he, pollWarningsFrom]
  | succ n ih =>
    intro remaining i elapsed acc trace hlt h he
    cases remaining with
    | zero => exact absurd hlt (by omega)
    | succ m =>
      obtain ⟨he0, hs0⟩ := h 0 (Nat.succ_pos n)
      rw [Nat.add_zero] at he0 hs0
      rw [isTerminalStatus, Bool.or_eq_false_iff] at hs0
      obtain ⟨hs1, hs2⟩ := hs0
      rw [pollUntilTerminalAux]
      simp only [he0, hs1, hs2, Bool.false_eq_true, if_false]
      rw [ih m (i + 1) (elapsed + 1) _ _ (by omega)
        (fun k hk => by
          have := h (k + 1) (Nat.succ_lt_succ hk)
          rwa [show i + (k + 1) = i + 1 + k by omega] at this)
        (by rwa [show i + 1 + n = i + (n + 1) by omega])]
      simp [pollWarningsFrom, List.replicate_succ, List.append_assoc]

/-- Inversion: whenever the poll loop returns no error, it issued at least
one call — its trace extends the incoming trace by `k + 1` poll calls. -/
theorem pollUntilTerminalAux_none_calls (client : CloudControllerClient) (jobGUID : String) :
    ∀ (remaining elapsed i : Nat) (acc : Warnings) (trace : List Call)
      (ws : Warnings) (tr : List Call),
      pollUntilTerminalAux client jobGUID remaining elapsed i acc trace = (ws, none, tr) →
      ∃ k, tr = trace ++ List.replicate (k + 1) (Call.getJob jobGUID) := by
  intro remaining
  induction remaining with
  | zero =>
    intro elapsed i acc trace ws tr h
    rw [pollUntilTerminalAux] at h
    simp at h
  | succ m ih =>
    intro elapsed i acc trace ws tr h
    rw [pollUntilTerminalAux] at h
    split at h
    · simp at h
    · split at h
      · refine ⟨0, ?_⟩
        have h3 := congrArg (fun p => p.2.2) h
        simp only [] at h3
        rw [← h3]
        simp
      · split at h
        · simp at h
        · obtain ⟨k, hk⟩ := ih _ _ _ _ _ _ h
          refine ⟨k + 1, ?_⟩
          rw [hk]
          simp [List.replicate_succ, List.append_assoc]

/-- When resolution and the delete call both succeed, the orchestrated
delete is the resolve warnings, the delete warnings, then whatever the
poll loop on the returned job's GUID produces, with the trace likewise
composed in call order. -/
theorem deleteOrganization_after_resolve (client : CloudControllerClient) (deadline : Nat)
    (orgName : String) (org : Organization) (rws : Warnings) (job : Job) (dws : Warnings)
    (h1 : client.getOrganizationsResult = ([org], rws, none))
    (h2 : client.deleteOrganizationResult = (job, dws, none)) :
    DeleteOrganization client deadline orgName =
      ((rws ++ dws) ++ (pollUntilTerminal client job.guid deadline).1,
        (pollUntilTerminal client job.guid deadline).2.1,
        ([Call.getOrganizations (nameQuery orgName),
          Call.deleteOrganization org.guid] : List Call) ++
          (pollUntilTerminal client job.guid deadline).2.2) := by
  rcases hp : pollUntilTerminal client job.guid deadline with ⟨pws, perr, ptr⟩
  simp [DeleteOrganization, GetOrganizationByName, h1, h2, hp, nameQuery]

/-- C6 witness: the transport-error scenario of the test file. -/
theorem getOrganizationByName_transport_error_witness :
    GetOrganizationByName errOrgClient "some-org" =
      (emptyOrganization, ["get-org-warning"], some (OpError.transport "get-orgs-error"),
        [Call.getOrganizations (nameQuery "some-org")]) :=
  getOrganizationByName_transport_error errOrgClient "some-org" [] ["get-org-warning"]
    (OpError.transport "get-orgs-error") rfl

/-- Fake client for the successful-delete scenario of the tests: the job
returned by the delete call is already in the finished status. -/
def successClient : CloudControllerClient :=
  { getOrganizationsResult := ([⟨"some-org-guid", ""⟩], ["get-org-warning"], none)
    deleteOrganizationResult :=
      (⟨"some-job-guid", jobStatusFinished⟩, ["delete-org-warning"], none)
    getJobResults := fun _ =>
      (⟨"some-job-guid", jobStatusFinished⟩, ["polling-warnings"], none) }

/-- Fake client for the delete-call-error scenario of the tests. -/
def deleteErrClient : CloudControllerClient :=
  { getOrganizationsResult := ([⟨"org-1-guid", ""⟩], ["get-org-warning"], none)
    deleteOrganizationResult :=
      (dummyJob, ["delete-org-warning"], some (OpError.transport "delete-org-error"))
    getJobResults := fun _ => (dummyJob, [], none) }

/-- Fake client for the poll-error scenario of the tests. -/
def pollErrClient : CloudControllerClient :=
  { getOrganizationsResult := ([⟨"some-org-guid", ""⟩], ["get-org-warning"], none)
    deleteOrganizationResult := (⟨"some-job-guid", ""⟩, ["delete-org-warning"], none)
    getJobResults := fun _ => (⟨"some-job-guid", ""⟩, ["polling-warnings"],
      some (OpError.transport "Never expected, by anyone")) }

/-- Fake client whose job never leaves the running status. -/
def pendingClient : CloudControllerClient :=
  { getOrganizationsResult := ([⟨"some-org-guid", ""⟩], ["get-org-warning"], none)
    deleteOrganizationResult := (⟨"some-job-guid", ""⟩, ["delete-org-warning"], none)
    getJobResults := fun _ =>
      (⟨"some-job-guid", jobStatusRunning⟩, ["polling-warnings"], none) }

/-- C1: when resolution succeeds, the delete call succeeds, and polling
observes the finished status at poll `n` within the deadline, the
orchestrated delete returns no error and its warnings are exactly the
resolve warnings, then the delete-call warnings, then each poll's warnings
in call order. -/
theorem deleteOrganization_success (client : CloudControllerClient)
    (deadline n : Nat) (orgName : String) (org : Organization) (rws : Warnings)
    (job : Job) (dws : Warnings)
    (h1 : client.getOrganizationsResult = ([org], rws, none))
    (h2 : client.deleteOrganizationResult = (job, dws, none))
    (h3 : ∀ k, k < n → NonTerminalPoll client k)
    (h4 : (client.getJobResults n).2.2 = none)
    (h5 : (client.getJobResults n).1.status = jobStatusFinished)
    (h6 : n < deadline) :
    DeleteOrganization client deadline orgName =
      (rws ++ dws ++ pollWarningsFrom client 0 (n + 1), none,
        [Call.getOrganizations (nameQuery orgName),
          Call.deleteOrganization org.guid] ++
          List.replicate (n + 1) (Call.getJob job.guid)) := by
  have hp : pollUntilTerminal client job.guid deadline =
      (pollWarningsFrom client 0 (n + 1), none,
        List.replicate (n + 1) (Call.getJob job.guid)) := by
    rw [pollUntilTerminal,
      pollUntilTerminalAux_success client job.guid n deadline 0 0 [] [] h6
        (fun k hk => by simpa using h3 k hk) (by simpa using h4) (by simpa using h5)]
    simp
  rw [deleteOrganization_after_resolve client deadline orgName org rws job dws h1 h2, hp]

/-- C1 witness: the successful-delete scenario of the test file. -/
theorem deleteOrganization_success_witness :
    DeleteOrganization successClient 1 "some-org" =
      (["get-org-warning", "delete-org-warning", "polling-warnings"], none,
        [Call.getOrganizations (nameQuery "some-org"),
          Call.deleteOrganization "some-org-guid", Call.getJob "some-job-guid"]) :=
  (deleteOrganization_success successClient 1 0 "some-org" ⟨"some-org-guid", ""⟩
    ["get-org-warning"] ⟨"some-job-guid", jobStatusFinished⟩ ["delete-org-warning"]
    rfl rfl (fun k hk => absurd hk (by omega)) rfl rfl (by omega)).trans (by decide)

/-- C7: when resolution succeeds but the delete call errors, the
orchestrated delete returns the delete call's error verbatim, the
warnings are exactly the resolve warnings plus the delete-call warnings,
and the trace contains no job-status poll. -/
theorem deleteOrganization_delete_error (client : CloudControllerClient) (deadline : Nat)
    (orgName : String) (org : Organization) (rws : Warnings) (job : Job) (dws : Warnings)
    (e : OpError)
    (h1 : client.getOrganizationsResult = ([org], rws, none))
    (h2 : client.deleteOrganizationResult = (job, dws, some e)) :
    DeleteOrganization client deadline orgName =
      (rws ++ dws, some e,
        [Call.getOrganizations (nameQuery orgName), Call.deleteOrganization org.guid]) := by
  simp [DeleteOrganization, GetOrganizationByName, h1, h2, nameQuery]

/-- C7 witness: the delete-error scenario of the test file. -/
theorem deleteOrganization_delete_error_witness :
    DeleteOrganization deleteErrClient 1 "some-org" =
      (["get-org-warning", "delete-org-warning"],
        some (OpError.transport "delete-org-error"),
        [Call.getOrganizations (nameQuery "some-org"),
          Call.deleteOrganization "org-1-guid"]) :=
  (deleteOrganization_delete_error deleteErrClient 1 "some-org" ⟨"org-1-guid", ""⟩
    ["get-org-warning"] dummyJob ["delete-org-warning"]
    (OpError.transport "delete-org-error") rfl rfl).trans (by decide)

/-- C8: when a job-status poll returns a transport-level error at poll
`n`, the loop stops with that error surfaced unchanged, exactly `n + 1`
polls were issued (none after the failure), and the failing poll's
warnings are still merged into the accumulated warnings. -/
theorem deleteOrganization_poll_error (client : CloudControllerClient)
    (deadline n : Nat) (orgName : String) (org : Organization) (rws : Warnings)
    (job : Job) (dws : Warnings) (e : OpError)
    (h1 : client.getOrganizationsResult = ([org], rws, none))
    (h2 : client.deleteOrganizationResult = (job, dws, none))
    (h3 : ∀ k, k < n → NonTerminalPoll client k)
    (h4 : (client.getJobResults n).2.2 = some e)
    (h5 : n < deadline) :
    DeleteOrganization client deadline orgName =
      (rws ++ dws ++ pollWarningsFrom client 0 (n + 1), some e,
        [Call.getOrganizations (nameQuery orgName),
          Call.deleteOrganization org.guid] ++
          List.replicate (n + 1) (Call.getJob job.guid)) := by
  have hp : pollUntilTerminal client job.guid deadline =
      (pollWarningsFrom client 0 (n + 1), some e,
        List.replicate (n + 1) (Call.getJob job.guid)) := by
    rw [pollUntilTerminal,
      pollUntilTerminalAux_error client job.guid e n deadline 0 0 [] [] h5
        (fun k hk => by simpa using h3 k hk) (by simpa using h4)]
    simp
  rw [deleteOrganization_after_resolve client deadline orgName org rws job dws h1 h2, hp]

/-- C8 witness: the poll-error scenario of the test file. -/
theorem deleteOrganization_poll_error_witness :
    DeleteOrganization pollErrClient 1 "some-org" =
      (["get-org-warning", "delete-org-warning", "polling-warnings"],
        some (OpError.transport "Never expected, by anyone"),
        [Call.getOrganizations (nameQuery "some-org"),
          Call.deleteOrganization "some-org-guid", Call.getJob "some-job-guid"]) :=
  (deleteOrganization_poll_error pollErrClient 1 0 "some-org" ⟨"some-org-guid", ""⟩
    ["get-org-warning"] ⟨"some-job-guid", ""⟩ ["delete-org-warning"]
    (OpError.transport "Never expected, by anyone")
    rfl rfl (fun k hk => absurd hk (by omega)) rfl (by omega)).trans (by decide)

/-- C9: when no poll within the deadline observes a terminal status, the
poller fails with a polling timeout carrying the job GUID and the elapsed
budget, and issues exactly `deadline` polls — none after the deadline; in
particular a deadline of zero issues no poll at all, because the deadline
is re-checked before each poll attempt. -/
theorem pollUntilTerminal_timeout (client : CloudControllerClient) (jobGUID : String)
    (deadline : Nat) (h : ∀ i, NonTerminalPoll client i) :
    pollUntilTerminal client jobGUID deadline =
      (pollWarningsFrom client 0 deadline,
        some (OpError.pollingTimeout jobGUID deadline),
        List.replicate deadline (Call.getJob jobGUID)) := by
  rw [pollUntilTerminal,
    pollUntilTerminalAux_timeout client jobGUID deadline 0 0 [] []
      (fun k _ => by simpa using h k)]
  simp

/-- C9 witness: a never-terminal job times out after exactly two polls
under deadline 2, and with deadline 0 no poll at all is issued. -/
theorem pollUntilTerminal_timeout_witness :
    pollUntilTerminal pendingClient "some-job-guid" 2 =
        (["polling-warnings", "polling-warnings"],
          some (OpError.pollingTimeout "some-job-guid" 2),
          [Call.getJob "some-job-guid", Call.getJob "some-job-guid"]) ∧
      pollUntilTerminal pendingClient "some-job-guid" 0 =
        ([], some (OpError.pollingTimeout "some-job-guid" 0), []) :=
  ⟨(pollUntilTerminal_timeout pendingClient "some-job-guid" 2
      (fun _ => ⟨rfl, rfl⟩)).trans (by decide),
    (pollUntilTerminal_timeout pendingClient "some-job-guid" 0
      (fun _ => ⟨rfl, rfl⟩)).trans (by decide)⟩

/-- C10: every successful orchestrated delete issued the delete call
exactly once, with the resolved organization's GUID, and issued at least
one job-status poll with the GUID of the job the delete call returned —
even when that job was already finished when the delete call returned. -/
theorem deleteOrganization_success_call_counts (client : CloudControllerClient)
    (deadline : Nat) (orgName : String) (org : Organization) (rws : Warnings)
    (job : Job) (dws : Warnings)
    (h1 : client.getOrganizationsResult = ([org], rws, none))
    (h2 : client.deleteOrganizationResult = (job, dws, none))
    (h3 : (DeleteOrganization client deadline orgName).2.1 = none) :
    (DeleteOrganization client deadline orgName).2.2.count
        (Call.deleteOrganization org.guid) = 1 ∧
      1 ≤ (DeleteOrganization client deadline orgName).2.2.count
        (Call.getJob job.guid) := by
  rw [deleteOrganization_after_resolve client deadline orgName org rws job dws h1 h2]
    at h3 ⊢
  rcases hp : pollUntilTerminal client job.guid deadline with ⟨pws, perr, ptr⟩
  rw [hp] at h3
  simp at h3
  subst h3
  obtain ⟨k, hk⟩ := pollUntilTerminalAux_none_calls client job.guid deadline 0 0 [] []
    pws ptr hp
  simp only [List.nil_append] at hk
  subst hk
  constructor
  · simp [List.count_append, List.count_cons, List.count_replicate, beq_iff_eq]
  · simp [List.count_append, List.count_cons, List.count_replicate_self, beq_iff_eq]

/-- C10 witness: the successful-delete scenario of the test file, in which
the job is already finished when the delete call returns and the poll is
still issued once. -/
theorem deleteOrganization_success_call_counts_witness :
    (DeleteOrganization successClient 1 "some-org").2.2.count
        (Call.deleteOrganization "some-org-guid") = 1 ∧
      1 ≤ (DeleteOrganization successClient 1 "some-org").2.2.count
        (Call.getJob "some-job-guid") :=
  deleteOrganization_success_call_counts successClient 1 "some-org"
    ⟨"some-org-guid", ""⟩ ["get-org-warning"] ⟨"some-job-guid", jobStatusFinished⟩
    ["delete-org-warning"] rfl rfl (by decide)

end V2Action
